import Mathlib

/-!
Shallow embedding of `src/Tesla_at_front.py` (a CARLA demo script).

The script's decision logic is the retrying spawn-placement procedure
`spawn_vehicle_in_front_of_ego_vehicle` (source lines 45-75), the blueprint
selection helper `get_actor_blueprints` (lines 23-42), and the call site in
`main` (lines 172-174) that reads `.id` off the spawn result.

Modelling choices:
* Coordinates are rationals; the per-retry vertical step `0.5` is exactly
  `1/2`, and `forward_vector` is an arbitrary 3-vector read from the ego
  transform (its trigonometric computation is owned by the CARLA library).
* The world authority (`world.try_spawn_actor`) is modelled by an acceptance
  policy `accept : ℕ → Bool` indexed by the attempt number of the invocation,
  together with an explicit world model (list of actors plus a fresh-id
  counter) threaded through the loop; a refusal leaves the world unchanged.
* The local variables `ego_transform` and `forward_vector` (read once, before
  the loop) are threaded through the loop as an environment `Env`, so that
  the procedure's effect on them is expressible.
* `retries` is an integer and the Python `for i in range(retries)` loop runs
  `retries.toNat` iterations, matching `range` on non-positive arguments.
-/

/-- `carla.Location` / `carla.Vector3D`: a 3D coordinate. -/
structure Location where
  x : ℚ
  y : ℚ
  z : ℚ
  deriving DecidableEq, Repr

/-- `carla.Rotation`: pitch/yaw/roll orientation. -/
structure Rotation where
  pitch : ℚ
  yaw : ℚ
  roll : ℚ
  deriving DecidableEq, Repr

/-- `carla.Transform`: a location plus a rotation. -/
structure Transform where
  location : Location
  rotation : Rotation
  deriving DecidableEq, Repr

/-- Componentwise vector addition (`Location.__add__`). -/
def Location.add (a b : Location) : Location :=
  ⟨a.x + b.x, a.y + b.y, a.z + b.z⟩

/-- Vector-by-scalar multiplication (`Vector3D.__mul__`). -/
def Location.scale (v : Location) (s : ℚ) : Location :=
  ⟨v.x * s, v.y * s, v.z * s⟩

/-- The local variables read before the retry loop (source lines 50-51):
`ego_transform = ego_vehicle.get_transform()` and
`forward_vector = ego_transform.get_forward_vector()`. -/
structure Env where
  ego_transform : Transform
  forward_vector : Location
  deriving DecidableEq, Repr

/-- The external world model: the actors that exist, and a counter supplying
fresh actor ids. -/
structure WorldModel where
  actors : List ℕ
  nextId : ℕ
  deriving DecidableEq, Repr

/-- `world.try_spawn_actor(blueprint, transform)` for attempt number `n` of
the invocation: if the world authority accepts, a new actor with a fresh id
is added to the world and its handle returned; a refusal returns `none` and
leaves the world unchanged (non-fatal mode). -/
def try_spawn_actor (accept : ℕ → Bool) (n : ℕ) (w : WorldModel) (_t : Transform) :
    Option ℕ × WorldModel :=
  if accept n then (some w.nextId, ⟨w.actors ++ [w.nextId], w.nextId + 1⟩)
  else (none, w)

/-- The candidate spawn pose of attempt `i` (source lines 63-66):
`spawn_location = ego_transform.location + forward_vector * distance`, then
`spawn_location.z += i * 0.5`, then
`spawn_transform = carla.Transform(spawn_location, ego_transform.rotation)`. -/
def candidate (env : Env) (distance : ℚ) (i : ℕ) : Transform :=
  let spawn_location := Location.add env.ego_transform.location
    (Location.scale env.forward_vector distance)
  let spawn_location' : Location :=
    { spawn_location with z := spawn_location.z + (i : ℚ) * (1 / 2) }
  { location := spawn_location', rotation := env.ego_transform.rotation }

/-- Everything observable about one invocation of the retry loop: the returned
handle (`none` on exhaustion), the number of `try_spawn_actor` requests made,
the transforms passed to them in order, the world model afterwards, and the
local environment afterwards. -/
structure SpawnResult where
  vehicle : Option ℕ
  requests : ℕ
  attempts : List Transform
  world : WorldModel
  env : Env
  deriving DecidableEq, Repr

/-- The retry loop `for i in range(retries)` (source lines 62-75), with `i`
the current attempt index and the third argument the remaining iterations.
On acceptance the handle is returned immediately; when the range is
exhausted the result is `none`. -/
def spawnLoop (accept : ℕ → Bool) (distance : ℚ) (env : Env) :
    ℕ → WorldModel → ℕ → SpawnResult
  | _, w, 0 => ⟨none, 0, [], w, env⟩
  | i, w, r + 1 =>
    let spawn_transform := candidate env distance i
    match try_spawn_actor accept i w spawn_transform with
    | (some h, w') => ⟨some h, 1, [spawn_transform], w', env⟩
    | (none, w') =>
      let rest := spawnLoop accept distance env (i + 1) w' r
      ⟨rest.vehicle, rest.requests + 1, spawn_transform :: rest.attempts,
        rest.world, rest.env⟩

/-- `spawn_vehicle_in_front_of_ego_vehicle` (source lines 45-75). The
blueprint preparation (lines 54-60) touches neither the candidate poses nor
the world model and is not part of the state here. Defaults in the source:
`distance=75`, `retries=5`. -/
def spawn_vehicle_in_front_of_ego_vehicle (accept : ℕ → Bool)
    (ego_transform : Transform) (forward_vector : Location)
    (distance : ℚ) (retries : ℤ) (w : WorldModel) : SpawnResult :=
  spawnLoop accept distance ⟨ego_transform, forward_vector⟩ 0 w retries.toNat

/-- A vehicle blueprint: its id and the integer value of its `generation`
attribute. -/
structure ActorBlueprint where
  id : String
  generation : ℤ
  deriving DecidableEq, Repr

/-- `get_actor_blueprints(world, filter, generation)` (source lines 23-42).
`library_filter` stands for `world.get_blueprint_library().filter`; Python's
`int(generation)` (whose failure is caught by the bare `except`) is modelled
by `String.toInt?`. -/
def get_actor_blueprints (library_filter : String → List ActorBlueprint)
    (filter : String) (generation : String) : List ActorBlueprint :=
  let bps := library_filter filter
  if generation.toLower = "all" then bps
  else if bps.length = 1 then bps
  else
    match String.toInt? generation with
    | some int_generation =>
      if int_generation = 1 ∨ int_generation = 2 then
        bps.filter (fun x => x.generation == int_generation)
      else []
    | none => []

/-- Modelled from the claim's words, for comparison with the source
definition: the full set whenever `generation` is "all" (case-insensitive)
or exactly one blueprint matches; the blueprints of the requested generation
when `generation` parses as 1 or 2; otherwise the empty list. -/
def get_actor_blueprints_spec (bps : List ActorBlueprint)
    (generation : String) : List ActorBlueprint :=
  if generation.toLower = "all" ∨ bps.length = 1 then bps
  else
    match String.toInt? generation with
    | some g =>
      if g = 1 ∨ g = 2 then bps.filter (fun x => x.generation == g)
      else []
    | none => []

/-- Python attribute access `new_vehicle.id` (source line 173): raises
`AttributeError` when `new_vehicle` is `None`, modelled as `Except`. -/
def actor_id (new_vehicle : Option ℕ) : Except String ℕ :=
  match new_vehicle with
  | some v => Except.ok v
  | none => Except.error "AttributeError"

/-- `main`'s handling of the spawn result (source lines 172-174):
`vehicles_list.append(new_vehicle.id)` with no check for `None`. -/
def main_track_spawned (vehicles_list : List ℕ) (new_vehicle : Option ℕ) :
    Except String (List ℕ) :=
  match actor_id new_vehicle with
  | Except.ok i => Except.ok (vehicles_list ++ [i])
  | Except.error e => Except.error e

/-! ### Helper lemmas about the retry loop -/

theorem spawnLoop_env (accept : ℕ → Bool) (d : ℚ) (env : Env) :
    ∀ (r i : ℕ) (w : WorldModel), (spawnLoop accept d env i w r).env = env := by
  intro r
  induction r with
  | zero => intro i w; rfl
  | succ r ih =>
    intro i w
    simp only [spawnLoop, try_spawn_actor]
    by_cases h : accept i
    · simp [h]
    · simp [h, ih]

theorem spawnLoop_attempts_get (accept : ℕ → Bool) (d : ℚ) (env : Env) :
    ∀ (k i r : ℕ) (w : WorldModel), k < r → (∀ j < k, accept (i + j) = false) →
      (spawnLoop accept d env i w r).attempts[k]? = some (candidate env d (i + k)) := by
  intro k
  induction k with
  | zero =>
    intro i r w hr _
    obtain ⟨r', rfl⟩ : ∃ r', r = r' + 1 := ⟨r - 1, by omega⟩
    simp only [spawnLoop, try_spawn_actor]
    by_cases h : accept i
    · simp [h]
    · simp [h]
  | succ k ih =>
    intro i r w hr hf
    obtain ⟨r', rfl⟩ : ∃ r', r = r' + 1 := ⟨r - 1, by omega⟩
    have h0 : accept i = false := by simpa using hf 0 (Nat.succ_pos k)
    have hik : i + 1 + k = i + (k + 1) := by omega
    simp only [spawnLoop, try_spawn_actor, h0, Bool.false_eq_true, if_false]
    have ihr := ih (i + 1) r' w (by omega)
      (fun j hj => by simpa [Nat.add_assoc, Nat.add_comm 1 j] using hf (j + 1) (by omega))
    simpa [hik] using ihr

theorem spawnLoop_accepts (accept : ℕ → Bool) (d : ℚ) (env : Env) :
    ∀ (k i r : ℕ) (w : WorldModel), k < r → (∀ j < k, accept (i + j) = false) →
      accept (i + k) = true →
      (spawnLoop accept d env i w r).vehicle = some w.nextId ∧
      (spawnLoop accept d env i w r).requests = k + 1 ∧
      (spawnLoop accept d env i w r).world =
        ⟨w.actors ++ [w.nextId], w.nextId + 1⟩ := by
  intro k
  induction k with
  | zero =>
    intro i r w hr _ ha
    obtain ⟨r', rfl⟩ : ∃ r', r = r' + 1 := ⟨r - 1, by omega⟩
    have ha' : accept i = true := by simpa using ha
    simp [spawnLoop, try_spawn_actor, ha']
  | succ k ih =>
    intro i r w hr hf ha
    obtain ⟨r', rfl⟩ : ∃ r', r = r' + 1 := ⟨r - 1, by omega⟩
    have h0 : accept i = false := by simpa using hf 0 (Nat.succ_pos k)
    have ihr := ih (i + 1) r' w (by omega)
      (fun j hj => by simpa [Nat.add_assoc, Nat.add_comm 1 j] using hf (j + 1) (by omega))
      (by simpa [Nat.add_assoc, Nat.add_comm 1 k] using ha)
    simp only [spawnLoop, try_spawn_actor, h0, Bool.false_eq_true, if_false]
    simpa using And.intro ihr.1 (And.intro (by omega) ihr.2.2)

theorem spawnLoop_refuses (accept : ℕ → Bool) (d : ℚ) (env : Env) :
    ∀ (r i : ℕ) (w : WorldModel), (∀ j < r, accept (i + j) = false) →
      (spawnLoop accept d env i w r).vehicle = none ∧
      (spawnLoop accept d env i w r).requests = r ∧
      (spawnLoop accept d env i w r).world = w := by
  intro r
  induction r with
  | zero => intro i w _; exact ⟨rfl, rfl, rfl⟩
  | succ r ih =>
    intro i w hf
    have h0 : accept i = false := by simpa using hf 0 (Nat.succ_pos r)
    have ihr := ih (i + 1) w
      (fun j hj => by simpa [Nat.add_assoc, Nat.add_comm 1 j] using hf (j + 1) (by omega))
    simp only [spawnLoop, try_spawn_actor, h0, Bool.false_eq_true, if_false]
    simpa using And.intro ihr.1 (And.intro (by omega) ihr.2.2)

theorem spawnLoop_world (accept : ℕ → Bool) (d : ℚ) (env : Env) :
    ∀ (r i : ℕ) (w : WorldModel),
      (spawnLoop accept d env i w r).world.actors =
        w.actors ++ (spawnLoop accept d env i w r).vehicle.toList ∧
      (spawnLoop accept d env i w r).world.nextId =
        w.nextId + (spawnLoop accept d env i w r).vehicle.toList.length := by
  intro r
  induction r with
  | zero => intro i w; simp [spawnLoop]
  | succ r ih =>
    intro i w
    by_cases h : accept i
    · simp [spawnLoop, try_spawn_actor, h]
    · simp only [spawnLoop, try_spawn_actor, h, Bool.false_eq_true, if_false]
      simpa using ih (i + 1) w

theorem spawnLoop_attempts_rotation (accept : ℕ → Bool) (d : ℚ) (env : Env) :
    ∀ (r i : ℕ) (w : WorldModel) (t : Transform),
      t ∈ (spawnLoop accept d env i w r).attempts →
      t.rotation = env.ego_transform.rotation := by
  intro r
  induction r with
  | zero => intro i w t ht; simp [spawnLoop] at ht
  | succ r ih =>
    intro i w t ht
    by_cases h : accept i
    · simp [spawnLoop, try_spawn_actor, h] at ht
      simp [ht, candidate]
    · simp only [spawnLoop, try_spawn_actor, h, Bool.false_eq_true, if_false,
        List.mem_cons] at ht
      rcases ht with ht | ht
      · simp [ht, candidate]
      · exact ih (i + 1) w t (by simpa using ht)

/-! ### Concrete sample inputs used by witnesses -/

/-- A sample reference (ego) transform. -/
def egoT : Transform := ⟨⟨10, 20, 30⟩, ⟨0, 90, 0⟩⟩

/-- A sample forward vector. -/
def fwdV : Location := ⟨1, 0, 0⟩

/-- A sample initial world model. -/
def w0 : WorldModel := ⟨[], 0⟩

/-! ### Claims -/

/-- C1: For every reference pose, every distance, and every attempt index `i`
with `0 ≤ i < maxRetries` (the attempt being issued when the authority refused
the earlier ones), the candidate spawn pose of attempt `i` has position equal
to `referencePose.position + forward(orientation) * distance` with `i * 0.5`
added to the vertical (z) component, the other two coordinates identical to
attempt 0's candidate, and orientation identical to
`referencePose.orientation` for every attempt. -/
theorem candidate_pose_of_attempt (accept : ℕ → Bool) (ego : Transform)
    (fwd : Location) (d : ℚ) (w : WorldModel) (retries : ℤ) (i : ℕ)
    (hi : (i : ℤ) < retries) (hr : ∀ j < i, accept j = false) :
    (spawn_vehicle_in_front_of_ego_vehicle accept ego fwd d retries w).attempts[i]? =
      some (candidate ⟨ego, fwd⟩ d i) ∧
    (candidate ⟨ego, fwd⟩ d i).location.x = (candidate ⟨ego, fwd⟩ d 0).location.x ∧
    (candidate ⟨ego, fwd⟩ d i).location.y = (candidate ⟨ego, fwd⟩ d 0).location.y ∧
    (candidate ⟨ego, fwd⟩ d i).location.z =
      (candidate ⟨ego, fwd⟩ d 0).location.z + (i : ℚ) * (1 / 2) ∧
    (candidate ⟨ego, fwd⟩ d 0).location =
      Location.add ego.location (Location.scale fwd d) ∧
    ∀ k : ℕ, (candidate ⟨ego, fwd⟩ d k).rotation = ego.rotation := by
  refine ⟨?_, ?_, ?_, ?_, ?_, ?_⟩
  · have h := spawnLoop_attempts_get accept d ⟨ego, fwd⟩ i 0 retries.toNat w
      (by omega) (fun j hj => by simpa using hr j hj)
    simpa [spawn_vehicle_in_front_of_ego_vehicle] using h
  · simp [candidate]
  · simp [candidate]
  · simp [candidate]
  · simp [candidate]
  · intro k
    simp [candidate]

/-- Witness for C1 at concrete inputs: the second candidate of a
two-retry run refused throughout. -/
theorem candidate_pose_of_attempt_witness :
    ((1 : ℤ) < 2 ∧ ∀ j < 1, (fun _ : ℕ => false) j = false) ∧
    (spawn_vehicle_in_front_of_ego_vehicle (fun _ => false) egoT fwdV 75 2 w0).attempts[1]? =
      some (candidate ⟨egoT, fwdV⟩ 75 1) :=
  ⟨⟨by decide, fun _ _ => rfl⟩,
    (candidate_pose_of_attempt (fun _ => false) egoT fwdV 75 w0 2 1 (by decide)
      (fun _ _ => rfl)).1⟩

/-- C2: if the world authority refuses every attempt with index less than `k`
and accepts attempt `k` (0-indexed, `k < maxRetries`), the procedure returns
the handle accepted on attempt `k` (the fresh id `w.nextId`) and issues
exactly `k + 1` placement requests — none after the success. -/
theorem spawn_returns_accepted_handle (accept : ℕ → Bool) (ego : Transform)
    (fwd : Location) (d : ℚ) (w : WorldModel) (retries : ℤ) (k : ℕ)
    (hk : (k : ℤ) < retries) (hr : ∀ j < k, accept j = false)
    (ha : accept k = true) :
    (spawn_vehicle_in_front_of_ego_vehicle accept ego fwd d retries w).vehicle =
      some w.nextId ∧
    (spawn_vehicle_in_front_of_ego_vehicle accept ego fwd d retries w).requests =
      k + 1 := by
  have h := spawnLoop_accepts accept d ⟨ego, fwd⟩ k 0 retries.toNat w
    (by omega) (fun j hj => by simpa using hr j hj) (by simpa using ha)
  exact ⟨by simpa [spawn_vehicle_in_front_of_ego_vehicle] using h.1,
    by simpa [spawn_vehicle_in_front_of_ego_vehicle] using h.2.1⟩

/-- Witness for C2: acceptance on attempt 1 of 3 returns after 2 requests. -/
theorem spawn_returns_accepted_handle_witness :
    ((1 : ℤ) < 3 ∧ (fun n : ℕ => n == 1) 1 = true) ∧
    (spawn_vehicle_in_front_of_ego_vehicle (fun n => n == 1) egoT fwdV 75 3 w0).vehicle =
      some w0.nextId ∧
    (spawn_vehicle_in_front_of_ego_vehicle (fun n => n == 1) egoT fwdV 75 3 w0).requests =
      2 :=
  ⟨⟨by decide, by decide⟩,
    spawn_returns_accepted_handle (fun n => n == 1) egoT fwdV 75 w0 3 1 (by decide)
      (by decide) (by decide)⟩

/-- C3: if the world authority refuses all `maxRetries` attempts, the
procedure issues exactly `maxRetries` placement requests and returns `none`,
leaving the world model unchanged; exhaustion is a normal return, not an
exception. -/
theorem spawn_exhaustion_returns_none (accept : ℕ → Bool) (ego : Transform)
    (fwd : Location) (d : ℚ) (w : WorldModel) (retries : ℤ)
    (hpos : 0 < retries) (hr : ∀ j : ℕ, (j : ℤ) < retries → accept j = false) :
    (spawn_vehicle_in_front_of_ego_vehicle accept ego fwd d retries w).vehicle =
      none ∧
    ((spawn_vehicle_in_front_of_ego_vehicle accept ego fwd d retries w).requests : ℤ) =
      retries ∧
    (spawn_vehicle_in_front_of_ego_vehicle accept ego fwd d retries w).world = w := by
  have h := spawnLoop_refuses accept d ⟨ego, fwd⟩ retries.toNat 0 w
    (fun j hj => by simpa using hr j (by omega))
  refine ⟨by simpa [spawn_vehicle_in_front_of_ego_vehicle] using h.1, ?_,
    by simpa [spawn_vehicle_in_front_of_ego_vehicle] using h.2.2⟩
  have h2 : (spawn_vehicle_in_front_of_ego_vehicle accept ego fwd d retries w).requests =
      retries.toNat := by
    simpa [spawn_vehicle_in_front_of_ego_vehicle] using h.2.1
  rw [h2]
  omega

/-- Witness for C3: two refused attempts out of two yield `none` after
exactly two requests. -/
theorem spawn_exhaustion_returns_none_witness :
    ((0 : ℤ) < 2 ∧ ∀ j : ℕ, (j : ℤ) < 2 → (fun _ : ℕ => false) j = false) ∧
    (spawn_vehicle_in_front_of_ego_vehicle (fun _ => false) egoT fwdV 75 2 w0).vehicle =
      none ∧
    ((spawn_vehicle_in_front_of_ego_vehicle (fun _ => false) egoT fwdV 75 2 w0).requests : ℤ) =
      2 ∧
    (spawn_vehicle_in_front_of_ego_vehicle (fun _ => false) egoT fwdV 75 2 w0).world = w0 :=
  ⟨⟨by decide, fun _ _ => rfl⟩,
    spawn_exhaustion_returns_none (fun _ => false) egoT fwdV 75 w0 2 (by decide)
      (fun _ _ => rfl)⟩

/-- C4: for every sequence of accept/refuse responses, a single invocation
lets at most one placement attempt succeed and never adds more than one
object to the world. -/
theorem spawn_creates_at_most_one (accept : ℕ → Bool) (ego : Transform)
    (fwd : Location) (d : ℚ) (w : WorldModel) (retries : ℤ) :
    (spawn_vehicle_in_front_of_ego_vehicle accept ego fwd d retries w).world.actors.length ≤
      w.actors.length + 1 ∧
    (spawn_vehicle_in_front_of_ego_vehicle accept ego fwd d retries w).world.nextId ≤
      w.nextId + 1 := by
  have h := spawnLoop_world accept d ⟨ego, fwd⟩ retries.toNat 0 w
  have hv : (spawnLoop accept d ⟨ego, fwd⟩ 0 w retries.toNat).vehicle.toList.length ≤ 1 := by
    cases (spawnLoop accept d ⟨ego, fwd⟩ 0 w retries.toNat).vehicle <;> simp
  constructor
  · simp only [spawn_vehicle_in_front_of_ego_vehicle, h.1, List.length_append]
    omega
  · simp only [spawn_vehicle_in_front_of_ego_vehicle, h.2]
    omega

/-- C5: with `maxRetries = 1` the procedure performs exactly one placement
attempt, and that attempt's candidate position has zero vertical offset: it
equals `referencePose.position + forward * distance` exactly. -/
theorem spawn_single_retry (accept : ℕ → Bool) (ego : Transform)
    (fwd : Location) (d : ℚ) (w : WorldModel) :
    (spawn_vehicle_in_front_of_ego_vehicle accept ego fwd d 1 w).requests = 1 ∧
    (spawn_vehicle_in_front_of_ego_vehicle accept ego fwd d 1 w).attempts =
      [⟨Location.add ego.location (Location.scale fwd d), ego.rotation⟩] := by
  by_cases h : accept 0 <;>
    simp [spawn_vehicle_in_front_of_ego_vehicle, spawnLoop, try_spawn_actor, h,
      candidate]

/-- C6: the procedure never mutates the reference pose: the environment read
before the loop (the ego transform and forward vector) is unchanged by the
invocation, and every candidate transform carries the reference orientation
unmodified — the vertical increment only ever lands on a freshly derived
candidate location. -/
theorem spawn_preserves_reference_pose (accept : ℕ → Bool) (ego : Transform)
    (fwd : Location) (d : ℚ) (w : WorldModel) (retries : ℤ) :
    (spawn_vehicle_in_front_of_ego_vehicle accept ego fwd d retries w).env =
      ⟨ego, fwd⟩ ∧
    ((spawn_vehicle_in_front_of_ego_vehicle accept ego fwd d retries w).attempts.all
      (fun t => t.rotation == ego.rotation)) = true := by
  constructor
  · simpa [spawn_vehicle_in_front_of_ego_vehicle] using
      spawnLoop_env accept d ⟨ego, fwd⟩ retries.toNat 0 w
  · rw [List.all_eq_true]
    intro t ht
    have h := spawnLoop_attempts_rotation accept d ⟨ego, fwd⟩ retries.toNat 0 w t
      (by simpa [spawn_vehicle_in_front_of_ego_vehicle] using ht)
    simpa using h

/-- C7: on failure no object is created and the world model is unchanged; on
success the world holds exactly the old actors plus the one returned handle,
and exactly one fresh id was consumed. -/
theorem spawn_world_effect (accept : ℕ → Bool) (ego : Transform)
    (fwd : Location) (d : ℚ) (w : WorldModel) (retries : ℤ) :
    (spawn_vehicle_in_front_of_ego_vehicle accept ego fwd d retries w).world.actors =
      w.actors ++
        (spawn_vehicle_in_front_of_ego_vehicle accept ego fwd d retries w).vehicle.toList ∧
    (spawn_vehicle_in_front_of_ego_vehicle accept ego fwd d retries w).world.nextId =
      w.nextId +
        (spawn_vehicle_in_front_of_ego_vehicle accept ego fwd d retries w).vehicle.toList.length := by
  simpa [spawn_vehicle_in_front_of_ego_vehicle] using
    spawnLoop_world accept d ⟨ego, fwd⟩ retries.toNat 0 w

/-- C8: called with `retries ≤ 0`, the procedure issues zero placement
requests and returns `none`; the positivity precondition on `maxRetries` is
not validated — no error is raised, the loop body simply never runs. -/
theorem spawn_nonpositive_retries (accept : ℕ → Bool) (ego : Transform)
    (fwd : Location) (d : ℚ) (w : WorldModel) (retries : ℤ)
    (h : retries ≤ 0) :
    (spawn_vehicle_in_front_of_ego_vehicle accept ego fwd d retries w).requests = 0 ∧
    (spawn_vehicle_in_front_of_ego_vehicle accept ego fwd d retries w).vehicle = none ∧
    (spawn_vehicle_in_front_of_ego_vehicle accept ego fwd d retries w).attempts = [] ∧
    (spawn_vehicle_in_front_of_ego_vehicle accept ego fwd d retries w).world = w := by
  have h0 : retries.toNat = 0 := by omega
  simp [spawn_vehicle_in_front_of_ego_vehicle, h0, spawnLoop]

/-- Witness for C8: `retries = -2` (and an authority that would accept)
still makes no request and returns `none`. -/
theorem spawn_nonpositive_retries_witness :
    (-2 : ℤ) ≤ 0 ∧
    (spawn_vehicle_in_front_of_ego_vehicle (fun _ => true) egoT fwdV 75 (-2) w0).requests = 0 ∧
    (spawn_vehicle_in_front_of_ego_vehicle (fun _ => true) egoT fwdV 75 (-2) w0).vehicle =
      none :=
  ⟨by decide,
    (spawn_nonpositive_retries (fun _ => true) egoT fwdV 75 w0 (-2) (by decide)).1,
    (spawn_nonpositive_retries (fun _ => true) egoT fwdV 75 w0 (-2) (by decide)).2.1⟩

/-- C9: `get_actor_blueprints` returns the full set of matching blueprints
whenever `generation` equals "all" case-insensitively or exactly one
blueprint matches; when `generation` parses as integer 1 or 2 it keeps only
the blueprints whose `generation` attribute equals that integer; every other
`generation` value (with more than one match) yields the empty list rather
than an exception — stated as equality with the claim-worded specification. -/
theorem get_actor_blueprints_eq_spec (library_filter : String → List ActorBlueprint)
    (filter generation : String) :
    get_actor_blueprints library_filter filter generation =
      get_actor_blueprints_spec (library_filter filter) generation := by
  unfold get_actor_blueprints get_actor_blueprints_spec
  by_cases h1 : generation.toLower = "all"
  · simp [h1]
  · by_cases h2 : (library_filter filter).length = 1 <;> simp [h1, h2]

/-- C10: when `spawn_vehicle_in_front_of_ego_vehicle` returns `None` (all
attempts refused), `main` immediately reads `.id` off that result with no
null check (`vehicles_list.append(new_vehicle.id)`, source line 173), so
spawn exhaustion surfaces as an `AttributeError` in the caller instead of a
handled empty-result outcome. `main` calls the procedure with its defaults
`distance = 75`, `retries = 5`. -/
theorem main_crashes_on_spawn_exhaustion (accept : ℕ → Bool) (ego : Transform)
    (fwd : Location) (vehicles_list : List ℕ) (w : WorldModel)
    (h : (spawn_vehicle_in_front_of_ego_vehicle accept ego fwd 75 5 w).vehicle = none) :
    main_track_spawned vehicles_list
      (spawn_vehicle_in_front_of_ego_vehicle accept ego fwd 75 5 w).vehicle =
      Except.error "AttributeError" := by
  rw [h]
  rfl

/-- Witness for C10: with an always-refusing authority the spawn result is
`None` and `main`'s bookkeeping step errors. -/
theorem main_crashes_on_spawn_exhaustion_witness :
    (spawn_vehicle_in_front_of_ego_vehicle (fun _ => false) egoT fwdV 75 5 w0).vehicle =
      none ∧
    main_track_spawned []
      (spawn_vehicle_in_front_of_ego_vehicle (fun _ => false) egoT fwdV 75 5 w0).vehicle =
      Except.error "AttributeError" :=
  ⟨by rfl,
    main_crashes_on_spawn_exhaustion (fun _ => false) egoT fwdV [] w0 (by rfl)⟩
